import Mathlib

/-!
Verification of the `blocks` dataset readers and checkpoint extensions.

Shallow embedding of:
  * `src/blocks/datasets/one_billion_word.py` (`TextFile`, `OneBillionWord`)
  * `src/blocks/extensions/saveload.py` (`SerializeMainLoop`,
    `SaveTrainingState`, `LoadTrainingState`)

Modelling conventions:
  * A text file is modelled by the list of lines `readline` returns for it,
    in order.  A real `readline` call returns each line (with its trailing
    newline, hence non-empty) and returns the empty string exactly at EOF;
    we model EOF as the list being exhausted.
  * A Python `dict` of tokens is an association list `List (String × Nat)`
    (first match wins; the concrete dictionaries used have distinct keys).
  * Python exceptions that the readers can raise (`ValueError` from reading
    a closed file or from a non-None request, `StopIteration`, `KeyError`,
    `IndexError`) are explicit result constructors.
  * The extensions' opaque collaborators (the `dill` codec and
    `MainLoopStateManager`) are modelled by an explicit outcome parameter:
    the calls either succeed or raise; the extension code under
    verification is what reacts to that outcome.
-/

/-- Python `str.isspace` for the characters relevant to `str.split()`. -/
def pyIsSpace (c : Char) : Bool :=
  c == ' ' || c == '\t' || c == '\n' || c == '\r' || c == '\x0b' || c == '\x0c'

/-- Helper for `pySplit`: walk the characters, accumulating the current
word (reversed); whitespace ends a word, runs of whitespace produce
nothing. -/
def pyWords : List Char → List Char → List (List Char)
  | [], cur => if cur.isEmpty then [] else [cur.reverse]
  | c :: cs, cur =>
      if pyIsSpace c then
        if cur.isEmpty then pyWords cs [] else cur.reverse :: pyWords cs []
      else pyWords cs (c :: cur)

/-- Python `sentence.split()`: split on whitespace runs, dropping empty
pieces. -/
def pySplit (s : String) : List String := (pyWords s.data []).map String.mk

/-- Python `str.lower` on the ASCII range (the only characters the
examples use). -/
def pyCharLower (c : Char) : Char :=
  if 'A' ≤ c && c ≤ 'Z' then Char.ofNat (c.toNat + 32) else c

/-- Python `str.lower`. -/
def pyLower (s : String) : String := String.mk (s.data.map pyCharLower)

/-- Truthiness of an `Optional[str]` in Python: `None` and `""` are falsy. -/
def pyTruthy : Option String → Bool
  | none => false
  | some s => !s.isEmpty

/-- A Python token dictionary. -/
abbrev PyDict := List (String × Nat)

/-- Python `'{:05d}'.format(n)`: zero-pad to the given width. -/
def padZeros (s : String) (width : Nat) : String :=
  if width ≤ s.length then s
  else String.mk (List.replicate (width - s.length) '0') ++ s

/-- Python `'{:05d}'.format(n)` for an `int` (the sign occupies width). -/
def format05 (n : Int) : String :=
  if n < 0 then "-" ++ padZeros (toString (-n)) 4 else padZeros (toString n) 5

/-- The file handle of a reader state: either open on the not-yet-read
suffix of the file's lines, or closed (reading raises `ValueError`). -/
inductive Handle where
  | opened (remaining : List String)
  | closed
deriving DecidableEq, Repr

/-- The per-session state built by `TextFile.open` / `OneBillionWord.open`:
the index of the current file and its handle.  (The Python code builds an
ad hoc object with attributes `current_index` and `file`.) -/
structure ReaderState where
  current_index : Nat
  file : Handle
deriving DecidableEq, Repr

/-- Result of the shared read-one-line-with-file-advance loop
(`while True: sentence = state.file.readline(); ...`). -/
inductive LineResult where
  | ok (line : String) (s : ReaderState)
  | atEnd (s : ReaderState)
  | closedErr (s : ReaderState)
  | idxErr (s : ReaderState)
deriving DecidableEq, Repr

/-- The line-reading loop both readers share, over `files` given as lists of
lines: read a line from the current handle; on EOF close the handle, and if
the current file is the last one report `atEnd` (the caller decides between
`StopIteration` and returning a partial batch), otherwise advance
`current_index` and reopen.  Reading a closed handle is Python's
`ValueError`; opening an out-of-range index is `IndexError`. -/
def nextLine (files : List (List String)) (s : ReaderState) : LineResult :=
  match s.file with
  | .closed => .closedErr s
  | .opened [] =>
      if s.current_index = files.length - 1 then
        .atEnd ⟨s.current_index, .closed⟩
      else
        match h2 : files[s.current_index + 1]? with
        | none => .idxErr ⟨s.current_index + 1, .closed⟩
        | some contents => nextLine files ⟨s.current_index + 1, .opened contents⟩
  | .opened (line :: rest) => .ok line ⟨s.current_index, .opened rest⟩
termination_by files.length - s.current_index
decreasing_by
  have : s.current_index + 1 < files.length := (List.getElem?_eq_some.mp h2).1
  omega

/-- Result of a `get_data` call, naming the Python exceptions that can
escape it. -/
inductive PyResult (α : Type) where
  | ok (data : α) (s : ReaderState)
  | stopIteration (s : ReaderState)
  | valueError (s : ReaderState)
  | keyError (s : ReaderState)
  | indexError (s : ReaderState)
deriving DecidableEq, Repr

/-- Whether a result is the end-of-corpus signal (`StopIteration`). -/
def PyResult.isStopIteration {α : Type} : PyResult α → Bool
  | .stopIteration _ => true
  | _ => false

/-- The lines still to be produced from a state: the open handle's suffix
followed by all lines of the files after `current_index`. -/
def remLines (files : List (List String)) (s : ReaderState) : List String :=
  match s.file with
  | .closed => []
  | .opened rest => rest ++ (files.drop (s.current_index + 1)).flatten

/-- `blocks.datasets.one_billion_word.TextFile`, after construction. -/
structure TextFile where
  files : List (List String)
  dictionary : PyDict
  bos_token : Option String
  eos_token : Option String
  unk_token : String
  level : String
  preprocess : Option (String → String)

/-- `TextFile.__init__`: the membership checks on `bos_token`, `eos_token`
and `unk_token`, in source order; `none` models the raised `ValueError`
(the spec's `ConfigurationError`). -/
def TextFile.init (files : List (List String)) (dictionary : PyDict)
    (bos_token eos_token : Option String) (unk_token : String)
    (level : String) (preprocess : Option (String → String)) : Option TextFile :=
  if bos_token.isSome && (List.lookup (bos_token.getD "") dictionary).isNone then
    none
  else if eos_token.isSome && (List.lookup (eos_token.getD "") dictionary).isNone then
    none
  else if (List.lookup unk_token dictionary).isNone then
    none
  else
    some ⟨files, dictionary, bos_token, eos_token, unk_token, level, preprocess⟩

/-- The list comprehension
`[dictionary.get(word, dictionary[unk_token]) for word in words]`:
for each word, the found id or the unknown id; `dictionary[unk_token]`
is only evaluated when there is at least one word, and raises `KeyError`
(modelled by `none`) when the unknown token is absent. -/
def mapTokens (dictionary : PyDict) (unk_token : String) (words : List String) :
    Option (List Nat) :=
  match words with
  | [] => some []
  | _ :: _ =>
      match List.lookup unk_token dictionary with
      | none => none
      | some unkId =>
          some (words.map (fun w => (List.lookup w dictionary).getD unkId))

/-- `sentence = self.preprocess(sentence) if self.preprocess is not None`. -/
def pyPre (preprocess : Option (String → String)) (s : String) : String :=
  match preprocess with
  | some f => f s
  | none => s

/-- The numberizing tail of `TextFile.get_data`: optional preprocessing,
then `[dictionary[bos_token]] if bos_token else []`, the word lookups with
unknown fallback, and `[dictionary[eos_token]] if eos_token else []`.
`none` models a `KeyError`. -/
def TextFile.numberize (tf : TextFile) (sentence0 : String) : Option (List Nat) :=
  let sentence := pyPre tf.preprocess sentence0
  match (if pyTruthy tf.bos_token then
          (List.lookup (tf.bos_token.getD "") tf.dictionary).map (fun i => [i])
         else some []) with
  | none => none
  | some bosPart =>
      match mapTokens tf.dictionary tf.unk_token (pySplit sentence) with
      | none => none
      | some mid =>
          match (if pyTruthy tf.eos_token then
                  (List.lookup (tf.eos_token.getD "") tf.dictionary).map (fun i => [i])
                 else some []) with
          | none => none
          | some eosPart => some (bosPart ++ mid ++ eosPart)

/-- `TextFile.open`: index 0 with the first file opened.  (With an empty
file list Python would raise `IndexError`; the claims assume a non-empty
list, which theorems state as a hypothesis.) -/
def TextFile.openState (tf : TextFile) : ReaderState :=
  ⟨0, .opened (tf.files.getD 0 [])⟩

/-- `TextFile.get_data`: a non-`None` request raises `ValueError`;
otherwise run the read loop and numberize the line obtained. -/
def TextFile.get_data (tf : TextFile) (s : ReaderState) (request : Option Nat) :
    PyResult (List Nat) :=
  if request.isSome then .valueError s
  else
    match nextLine tf.files s with
    | .ok line s' =>
        match tf.numberize line with
        | some data => .ok data s'
        | none => .keyError s'
    | .atEnd s' => .stopIteration s'
    | .closedErr s' => .valueError s'
    | .idxErr s' => .indexError s'

/-- How a run of successive `get_data` calls ended. -/
inductive RunEnd where
  | endOfCorpus
  | errored
  | outOfFuel
deriving DecidableEq, Repr

/-- Drive `TextFile.get_data` up to `fuel` times, collecting the returned
sequences until a non-`ok` result. -/
def TextFile.consume (tf : TextFile) : Nat → ReaderState → List (List Nat) × RunEnd
  | 0, _ => ([], .outOfFuel)
  | fuel + 1, s =>
      match tf.get_data s none with
      | .ok d s' =>
          let r := tf.consume fuel s'
          (d :: r.1, r.2)
      | .stopIteration _ => ([], .endOfCorpus)
      | _ => ([], .errored)

/-- `blocks.datasets.one_billion_word.OneBillionWord`. -/
structure OneBillionWord where
  which_set : String
  which_partitions : List Int
  dictionary : PyDict
  preprocess : Option (String → String)

/-- `OneBillionWord.__init__`: plain attribute assignment, no validation of
any argument; embedded with an `Except` result to record that no exception
is ever raised. -/
def OneBillionWord.init (which_set : String) (which_partitions : List Int)
    (dictionary : PyDict) (preprocess : Option (String → String)) :
    Except Unit OneBillionWord :=
  .ok ⟨which_set, which_partitions, dictionary, preprocess⟩

/-- The path computed by `OneBillionWord._open_file` for a partition
number: the training naming scheme exactly when `which_set == 'training'`,
the held-out naming scheme for every other value of `which_set`.
`dataPath` is `blocks.config.data_path`; `os.path.join` concatenates with
`/`. -/
def partitionPath (dataPath : String) (which_set : String) (partition : Int) : String :=
  if which_set = "training" then
    dataPath ++ "/1-billion-word/training-monolingual.tokenized.shuffled/news.en-"
      ++ format05 partition ++ "-of-00100"
  else
    dataPath ++ "/1-billion-word/heldout-monolingual.tokenized.shuffled/news.en.heldout-"
      ++ format05 partition ++ "-of-00050"

/-- `OneBillionWord._open_file`'s path for a partition *index*:
`which_partitions[partition_index]` (IndexError, modelled `none`, when out
of range) fed through the naming scheme. -/
def OneBillionWord.openPath (obw : OneBillionWord) (dataPath : String)
    (partition_index : Nat) : Option String :=
  (obw.which_partitions[partition_index]?).map (partitionPath dataPath obw.which_set)

/-- The corpus seen by an `OneBillionWord` reader: the contents (as line
lists) of each selected partition's file, under the file system `fs`
mapping a path to the lines read from it. -/
def OneBillionWord.fileContents (obw : OneBillionWord) (dataPath : String)
    (fs : String → List String) : List (List String) :=
  obw.which_partitions.map (fun p => fs (partitionPath dataPath obw.which_set p))

/-- The sequence built by `OneBillionWord.get_data` for one line:
`[dictionary['<S>']] + [dictionary.get(word, dictionary['<UNK>']) for word
in sentence.split()] + [dictionary['</S>']]`.  The raw line is used: no
preprocessing is applied.  `none` models a `KeyError`. -/
def obwNumberize (dictionary : PyDict) (sentence : String) : Option (List Nat) :=
  match List.lookup "<S>" dictionary with
  | none => none
  | some bosId =>
      match mapTokens dictionary "<UNK>" (pySplit sentence) with
      | none => none
      | some mid =>
          match List.lookup "</S>" dictionary with
          | none => none
          | some eosId => some ([bosId] ++ mid ++ [eosId])

/-- The `while len(data) < request` loop of `OneBillionWord.get_data`:
keep reading lines (with the shared file-advance behaviour) and appending
numberized sequences; when the last file is exhausted, raise
`StopIteration` if nothing was collected on this call, else return the
partial batch. -/
def obwLoop (files : List (List String)) (dictionary : PyDict) (request : Nat)
    (data : List (List Nat)) (s : ReaderState) : PyResult (List (List Nat)) :=
  if data.length < request then
    match nextLine files s with
    | .ok line s' =>
        match obwNumberize dictionary line with
        | some seq => obwLoop files dictionary request (data ++ [seq]) s'
        | none => .keyError s'
    | .atEnd s' => if data.isEmpty then .stopIteration s' else .ok data s'
    | .closedErr s' => .valueError s'
    | .idxErr s' => .indexError s'
  else .ok data s
termination_by request - data.length
decreasing_by
  simp only [List.length_append, List.length_cons, List.length_nil]
  omega

/-- `OneBillionWord.get_data` for a batch of `request` sequences. -/
def OneBillionWord.get_data (obw : OneBillionWord) (dataPath : String)
    (fs : String → List String) (s : ReaderState) (request : Nat) :
    PyResult (List (List Nat)) :=
  obwLoop (obw.fileContents dataPath fs) obw.dictionary request [] s

/-- `OneBillionWord.open`: index 0 with the first partition opened. -/
def OneBillionWord.openState (obw : OneBillionWord) (dataPath : String)
    (fs : String → List String) : ReaderState :=
  ⟨0, .opened ((obw.fileContents dataPath fs).getD 0 [])⟩

/-! ## `blocks/extensions/saveload.py` -/

/-- Outcome of `dill.dump(self.main_loop, destination)` into the freshly
truncated destination: full success with the serialized payload, a failure
of `open` itself (destination untouched), or a failure during dumping with
only a prefix of the payload written. -/
inductive SerOutcome where
  | success (payload : List Nat)
  | failOpen
  | failDump (written : List Nat)
deriving DecidableEq, Repr

/-- The world `SerializeMainLoop.do` acts on: the bytes at the destination
path (`none` = no file) and the `saving_done_to` entry of the log's
current row (`none` = key absent, `some none` = set to Python `None`). -/
structure SaveWorld where
  dest : Option (List Nat)
  savingDoneTo : Option (Option String)
deriving DecidableEq, Repr

/-- The `try` block of `SerializeMainLoop.do`: record the destination path
in the log, then `open(self.path, "wb")` (truncating any existing file)
and dump.  `Sum.inl` is normal return, `Sum.inr` an exception escaping the
block with the world as mutated so far. -/
def serializeMainLoop_body (path : String) (outcome : SerOutcome) (w : SaveWorld) :
    SaveWorld ⊕ SaveWorld :=
  let w1 : SaveWorld := { w with savingDoneTo := some (some path) }
  match outcome with
  | .success payload => .inl { w1 with dest := some payload }
  | .failOpen => .inr w1
  | .failDump written => .inr { w1 with dest := some written }

/-- `SerializeMainLoop.do`: the `try` block under a bare `except:` that
records `None` for `saving_done_to`.  The `Except` result records whether
an exception propagates to the training loop. -/
def serializeMainLoop_do (path : String) (outcome : SerOutcome) (w : SaveWorld) :
    Except Unit SaveWorld :=
  match serializeMainLoop_body path outcome w with
  | .inl w' => .ok w'
  | .inr w' => .ok { w' with savingDoneTo := some none }

/-- Outcome of an opaque `MainLoopStateManager.save` / `load_to` call. -/
inductive OpOutcome where
  | success
  | failure
deriving DecidableEq, Repr

/-- The world `SaveTrainingState.do` acts on: the log entry and whether the
manager completed a save. -/
structure ManagedSaveWorld where
  savingDoneTo : Option (Option String)
  saved : Bool
deriving DecidableEq, Repr

/-- The `try` block of `SaveTrainingState.do`: record the manager's folder
in the log, then `self.manager.save(self.main_loop)`. -/
def saveTrainingState_body (folder : String) (outcome : OpOutcome)
    (w : ManagedSaveWorld) : ManagedSaveWorld ⊕ ManagedSaveWorld :=
  let w1 : ManagedSaveWorld := { w with savingDoneTo := some (some folder) }
  match outcome with
  | .success => .inl { w1 with saved := true }
  | .failure => .inr w1

/-- `SaveTrainingState.do`: bare `except:` records `None`. -/
def saveTrainingState_do (folder : String) (outcome : OpOutcome)
    (w : ManagedSaveWorld) : Except Unit ManagedSaveWorld :=
  match saveTrainingState_body folder outcome w with
  | .inl w' => .ok w'
  | .inr w' => .ok { w' with savingDoneTo := some none }

/-- The world `LoadTrainingState.before_training` acts on: the `loaded_from`
log entry, whether the main loop was restored from the snapshot, and
whether a diagnostic was written to the module logger. -/
structure LoadWorld where
  loadedFrom : Option (Option String)
  restored : Bool
  errorLogged : Bool
deriving DecidableEq, Repr

/-- The `try` block of `LoadTrainingState.before_training`:
`self.manager.load_to(self.main_loop)` then record the folder in the log. -/
def loadTrainingState_body (folder : String) (outcome : OpOutcome) (w : LoadWorld) :
    LoadWorld ⊕ LoadWorld :=
  match outcome with
  | .success => .inl { w with restored := true, loadedFrom := some (some folder) }
  | .failure => .inr w

/-- `LoadTrainingState.before_training`: on any exception, log the traceback
and continue (startup is not aborted). -/
def loadTrainingState_before_training (folder : String) (outcome : OpOutcome)
    (w : LoadWorld) : Except Unit LoadWorld :=
  match loadTrainingState_body folder outcome w with
  | .inl w' => .ok w'
  | .inr w' => .ok { w' with errorLogged := true }

/-! ## Behaviour of the shared line-reading loop -/

theorem nextLine_closed (files : List (List String)) (i : Nat) :
    nextLine files ⟨i, .closed⟩ = .closedErr ⟨i, .closed⟩ := by
  rw [nextLine]

theorem nextLine_cons (files : List (List String)) (i : Nat) (l : String)
    (r : List String) :
    nextLine files ⟨i, .opened (l :: r)⟩ = .ok l ⟨i, .opened r⟩ := by
  rw [nextLine]

theorem nextLine_nil_last (files : List (List String)) (i : Nat)
    (h : i = files.length - 1) :
    nextLine files ⟨i, .opened []⟩ = .atEnd ⟨i, .closed⟩ := by
  rw [nextLine]
  simp [h]

theorem nextLine_nil_adv (files : List (List String)) (i : Nat) (c : List String)
    (h : i ≠ files.length - 1) (h2 : files[i + 1]? = some c) :
    nextLine files ⟨i, .opened []⟩ = nextLine files ⟨i + 1, .opened c⟩ := by
  rw [nextLine]
  simp only [h, if_false]
  split <;> simp_all

theorem remLines_opened (files : List (List String)) (i : Nat) (rest : List String) :
    remLines files ⟨i, .opened rest⟩ = rest ++ (files.drop (i + 1)).flatten := rfl

/-- Specification of `nextLine` on in-range open states: it returns the head
of the remaining lines (advancing through any number of empty files), or
reports the end of the corpus from the last index, with the handle closed,
when no line remains. -/
theorem nextLine_spec_aux :
    ∀ (n : Nat) (files : List (List String)) (i : Nat) (rest : List String),
      files.length - i ≤ n → i < files.length →
      (remLines files ⟨i, .opened rest⟩ = [] →
        nextLine files ⟨i, .opened rest⟩ = .atEnd ⟨files.length - 1, .closed⟩) ∧
      (∀ line t, remLines files ⟨i, .opened rest⟩ = line :: t →
        ∃ i' r', nextLine files ⟨i, .opened rest⟩ = .ok line ⟨i', .opened r'⟩ ∧
          i' < files.length ∧ remLines files ⟨i', .opened r'⟩ = t) := by
  intro n
  induction n with
  | zero => intro files i rest hle hlt; omega
  | succ n ih =>
      intro files i rest hle hlt
      match rest with
      | line :: r =>
          constructor
          · intro hnil
            rw [remLines_opened] at hnil
            simp at hnil
          · intro line' t hcons
            rw [remLines_opened] at hcons
            rw [List.cons_append] at hcons
            injection hcons with h1 h2
            subst h1
            exact ⟨i, r, by rw [nextLine_cons], hlt, by rw [remLines_opened]; exact h2⟩
      | [] =>
          by_cases hi : i = files.length - 1
          · have hdrop : files.drop (i + 1) = [] := by
              apply List.drop_eq_nil_of_le
              omega
            have hrem : remLines files ⟨i, .opened []⟩ = [] := by
              rw [remLines_opened, hdrop]
              simp
            constructor
            · intro _
              rw [nextLine_nil_last files i hi, hi]
            · intro line t hcons
              rw [hrem] at hcons
              simp at hcons
          · have hi1 : i + 1 < files.length := by omega
            have h2 : files[i + 1]? = some files[i + 1] := List.getElem?_eq_getElem hi1
            have hstep := nextLine_nil_adv files i files[i + 1] hi h2
            have hdrop : files.drop (i + 1) = files[i + 1] :: files.drop (i + 2) :=
              List.drop_eq_getElem_cons hi1
            have hrem : remLines files ⟨i, .opened []⟩ =
                remLines files ⟨i + 1, .opened files[i + 1]⟩ := by
              rw [remLines_opened, remLines_opened, hdrop]
              simp only [List.nil_append, List.flatten_cons]
            have ihx := ih files (i + 1) files[i + 1] (by omega) hi1
            constructor
            · intro hnil
              rw [hrem] at hnil
              rw [hstep]
              exact ihx.1 hnil
            · intro line t hcons
              rw [hrem] at hcons
              obtain ⟨i', r', he, hlt', hr'⟩ := ihx.2 line t hcons
              exact ⟨i', r', by rw [hstep]; exact he, hlt', hr'⟩

theorem nextLine_of_nil (files : List (List String)) (i : Nat) (rest : List String)
    (hlt : i < files.length) (hnil : remLines files ⟨i, .opened rest⟩ = []) :
    nextLine files ⟨i, .opened rest⟩ = .atEnd ⟨files.length - 1, .closed⟩ :=
  (nextLine_spec_aux (files.length - i) files i rest le_rfl hlt).1 hnil

theorem nextLine_of_cons (files : List (List String)) (i : Nat) (rest : List String)
    (line : String) (t : List String)
    (hlt : i < files.length) (hcons : remLines files ⟨i, .opened rest⟩ = line :: t) :
    ∃ i' r', nextLine files ⟨i, .opened rest⟩ = .ok line ⟨i', .opened r'⟩ ∧
      i' < files.length ∧ remLines files ⟨i', .opened r'⟩ = t :=
  (nextLine_spec_aux (files.length - i) files i rest le_rfl hlt).2 line t hcons

/-! ## Specification of the two `get_data` operations -/

theorem textFile_get_data_closed (tf : TextFile) (i : Nat) :
    tf.get_data ⟨i, .closed⟩ none = .valueError ⟨i, .closed⟩ := by
  rw [TextFile.get_data]
  simp [nextLine_closed]

/-- Driving `TextFile.get_data` from any in-range open state returns the
numberized remaining lines, one per call, and the call after the last line
reports end-of-corpus. -/
theorem consume_spec (tf : TextFile) :
    ∀ (R : List String) (i : Nat) (rest : List String),
      i < tf.files.length →
      remLines tf.files ⟨i, .opened rest⟩ = R →
      (∀ l ∈ R, (tf.numberize l).isSome) →
      tf.consume (R.length + 1) ⟨i, .opened rest⟩ =
        (R.map (fun l => (tf.numberize l).getD []), .endOfCorpus) := by
  intro R
  induction R with
  | nil =>
      intro i rest hlt hrem _
      have hstep := nextLine_of_nil tf.files i rest hlt hrem
      rw [TextFile.consume, TextFile.get_data]
      simp [hstep]
  | cons l t ih =>
      intro i rest hlt hrem hnum
      obtain ⟨i', r', he, hlt', hr'⟩ := nextLine_of_cons tf.files i rest l t hlt hrem
      have hl : (tf.numberize l).isSome := hnum l (by simp)
      obtain ⟨d, hd⟩ := Option.isSome_iff_exists.mp hl
      have hrec := ih i' r' hlt' hr' (fun x hx => hnum x (by simp [hx]))
      show tf.consume (t.length + 1 + 1) ⟨i, .opened rest⟩ = _
      rw [TextFile.consume, TextFile.get_data]
      simp only [Option.isSome_none, Bool.false_eq_true, if_false, he, hd, hrec]
      simp [hd]

theorem obwLoop_done (files : List (List String)) (dictionary : PyDict)
    (request : Nat) (data : List (List Nat)) (s : ReaderState)
    (h : request ≤ data.length) :
    obwLoop files dictionary request data s = .ok data s := by
  rw [obwLoop]
  rw [if_neg (by omega)]

theorem obwLoop_step (files : List (List String)) (dictionary : PyDict)
    (request : Nat) (data : List (List Nat)) (s : ReaderState)
    (h : data.length < request) :
    obwLoop files dictionary request data s =
      match nextLine files s with
      | .ok line s' =>
          match obwNumberize dictionary line with
          | some seq => obwLoop files dictionary request (data ++ [seq]) s'
          | none => .keyError s'
      | .atEnd s' => if data.isEmpty then .stopIteration s' else .ok data s'
      | .closedErr s' => .valueError s'
      | .idxErr s' => .indexError s' := by
  rw [obwLoop]
  rw [if_pos h]

theorem obw_get_data_closed (obw : OneBillionWord) (dataPath : String)
    (fs : String → List String) (i : Nat) (request : Nat) (h : 0 < request) :
    obw.get_data dataPath fs ⟨i, .closed⟩ request = .valueError ⟨i, .closed⟩ := by
  rw [OneBillionWord.get_data, obwLoop_step _ _ _ _ _ (by simpa using h)]
  simp [nextLine_closed]

/-- Full specification of the `OneBillionWord.get_data` loop from an
in-range open state, by cases on how the requested count compares with the
number of remaining lines. -/
theorem obwLoop_spec (dictionary : PyDict) :
    ∀ (R : List String) (files : List (List String)) (request : Nat)
      (data : List (List Nat)) (i : Nat) (rest : List String),
      i < files.length →
      remLines files ⟨i, .opened rest⟩ = R →
      (∀ l ∈ R, (obwNumberize dictionary l).isSome) →
      ((request ≤ data.length →
          obwLoop files dictionary request data ⟨i, .opened rest⟩
            = .ok data ⟨i, .opened rest⟩)
      ∧ (data.length < request → request ≤ R.length + data.length →
          ∃ i' r', obwLoop files dictionary request data ⟨i, .opened rest⟩
              = .ok (data ++ (R.take (request - data.length)).map
                  (fun l => (obwNumberize dictionary l).getD [])) ⟨i', .opened r'⟩
            ∧ i' < files.length
            ∧ remLines files ⟨i', .opened r'⟩ = R.drop (request - data.length))
      ∧ (data.length < request → R.length + data.length < request → data = [] → R = [] →
          obwLoop files dictionary request data ⟨i, .opened rest⟩
            = .stopIteration ⟨files.length - 1, .closed⟩)
      ∧ (data.length < request → R.length + data.length < request →
          (data ≠ [] ∨ R ≠ []) →
          obwLoop files dictionary request data ⟨i, .opened rest⟩
            = .ok (data ++ R.map (fun l => (obwNumberize dictionary l).getD []))
                ⟨files.length - 1, .closed⟩)) := by
  intro R
  induction R with
  | nil =>
      intro files request data i rest hlt hrem _
      have hstep := nextLine_of_nil files i rest hlt hrem
      refine ⟨fun h => obwLoop_done _ _ _ _ _ h, ?_, ?_, ?_⟩
      · intro h1 h2
        simp only [List.length_nil] at h2
        omega
      · intro h1 _ hdata _
        rw [obwLoop_step _ _ _ _ _ h1, hstep]
        simp [hdata]
      · intro h1 _ hne
        have hdata : ¬data.isEmpty := by
          rcases hne with h | h
          · simpa using h
          · simp at h
        rw [obwLoop_step _ _ _ _ _ h1, hstep]
        simp [hdata]
  | cons l t ih =>
      intro files request data i rest hlt hrem hnum
      obtain ⟨i', r', he, hlt', hr'⟩ := nextLine_of_cons files i rest l t hlt hrem
      have hl : (obwNumberize dictionary l).isSome := hnum l (by simp)
      obtain ⟨d, hd⟩ := Option.isSome_iff_exists.mp hl
      have hnum' : ∀ x ∈ t, (obwNumberize dictionary x).isSome :=
        fun x hx => hnum x (by simp [hx])
      have ihx := ih files request (data ++ [d]) i' r' hlt' hr' hnum'
      refine ⟨fun h => obwLoop_done _ _ _ _ _ h, ?_, ?_, ?_⟩
      · intro h1 h2
        rw [obwLoop_step _ _ _ _ _ h1]
        simp only [he, hd]
        by_cases hfull : request ≤ (data ++ [d]).length
        · have hreq : request = data.length + 1 := by
            simp at hfull
            omega
          refine ⟨i', r', ?_, hlt', ?_⟩
          · rw [ihx.1 hfull, hreq]
            simp [hd]
          · rw [hr', hreq]
            simp
        · have h1' : (data ++ [d]).length < request := by omega
          have h2' : request ≤ t.length + (data ++ [d]).length := by
            simp only [List.length_append, List.length_cons, List.length_nil]
            simp at h2
            omega
          obtain ⟨i'', r'', he'', hlt'', hr''⟩ := (ihx.2.1) h1' h2'
          refine ⟨i'', r'', ?_, hlt'', ?_⟩
          · rw [he'']
            have hK : request - data.length = (request - (data.length + 1)) + 1 := by omega
            rw [hK, List.take_succ_cons, List.map_cons, hd]
            simp
          · rw [hr'']
            have hK : request - data.length = (request - (data.length + 1)) + 1 := by omega
            rw [hK, List.drop_succ_cons]
            simp
      · intro _ _ _ hR
        exact absurd hR (by simp)
      · intro h1 hsum _
        rw [obwLoop_step _ _ _ _ _ h1]
        simp only [he, hd]
        have hlen : (data ++ [d]).length = data.length + 1 := by simp
        have hsum0 : t.length + 1 + data.length < request := by
          simp only [List.length_cons] at hsum
          omega
        have hsum' : t.length + (data ++ [d]).length < request := by
          rw [hlen]
          omega
        have h1' : (data ++ [d]).length < request := by
          rw [hlen]
          omega
        rw [(ihx.2.2.2) h1' hsum' (Or.inl (by simp))]
        simp [hd]

/-! ## Constructor checks and numberizing totality -/

theorem textFile_init_none_iff (files : List (List String)) (dictionary : PyDict)
    (bos_token eos_token : Option String) (unk_token : String) (level : String)
    (preprocess : Option (String → String)) :
    TextFile.init files dictionary bos_token eos_token unk_token level preprocess
        = none ↔
      (∃ b, bos_token = some b ∧ List.lookup b dictionary = none) ∨
      (∃ e, eos_token = some e ∧ List.lookup e dictionary = none) ∨
      List.lookup unk_token dictionary = none := by
  constructor
  · intro h
    by_cases h1 : bos_token.isSome
        && (List.lookup (bos_token.getD "") dictionary).isNone
    · left
      rcases bos_token with _ | b
      · simp at h1
      · refine ⟨b, rfl, ?_⟩
        rw [Bool.and_eq_true] at h1
        exact Option.isNone_iff_eq_none.mp (by simpa using h1.2)
    · by_cases h2 : eos_token.isSome
          && (List.lookup (eos_token.getD "") dictionary).isNone
      · right; left
        rcases eos_token with _ | e
        · simp at h2
        · refine ⟨e, rfl, ?_⟩
          rw [Bool.and_eq_true] at h2
          exact Option.isNone_iff_eq_none.mp (by simpa using h2.2)
      · by_cases h3 : (List.lookup unk_token dictionary).isNone
        · right; right
          exact Option.isNone_iff_eq_none.mp h3
        · exfalso
          unfold TextFile.init at h
          rw [if_neg (by simpa using h1), if_neg (by simpa using h2),
            if_neg (by simpa using h3)] at h
          exact Option.some_ne_none _ h
  · intro h
    unfold TextFile.init
    rcases h with ⟨b, hbe, hb⟩ | ⟨e, hee, he⟩ | hu
    · subst hbe
      rw [if_pos (by simp [hb])]
    · subst hee
      by_cases h1 : bos_token.isSome
          && (List.lookup (bos_token.getD "") dictionary).isNone
      · rw [if_pos h1]
      · rw [if_neg (by simpa using h1), if_pos (by simp [he])]
    · by_cases h1 : bos_token.isSome
          && (List.lookup (bos_token.getD "") dictionary).isNone
      · rw [if_pos h1]
      · by_cases h2 : eos_token.isSome
            && (List.lookup (eos_token.getD "") dictionary).isNone
        · rw [if_neg (by simpa using h1), if_pos h2]
        · rw [if_neg (by simpa using h1), if_neg (by simpa using h2),
            if_pos (by simp [hu])]

theorem textFile_init_some (files : List (List String)) (dictionary : PyDict)
    (bos_token eos_token : Option String) (unk_token : String) (level : String)
    (preprocess : Option (String → String)) (tf : TextFile)
    (h : TextFile.init files dictionary bos_token eos_token unk_token level preprocess
          = some tf) :
    tf = ⟨files, dictionary, bos_token, eos_token, unk_token, level, preprocess⟩ ∧
    (∀ b, bos_token = some b → (List.lookup b dictionary).isSome) ∧
    (∀ e, eos_token = some e → (List.lookup e dictionary).isSome) ∧
    (List.lookup unk_token dictionary).isSome := by
  unfold TextFile.init at h
  split at h
  · exact absurd h (by simp)
  · split at h
    · exact absurd h (by simp)
    · split at h
      · exact absurd h (by simp)
      · rename_i h1 h2 h3
        injection h with h0
        refine ⟨h0.symm, ?_, ?_, by simpa using h3⟩
        · intro b hb
          subst hb
          simpa using h1
        · intro e he
          subst he
          simpa using h2

theorem numberize_isSome (tf : TextFile)
    (hbos : ∀ b, tf.bos_token = some b → (List.lookup b tf.dictionary).isSome)
    (heos : ∀ e, tf.eos_token = some e → (List.lookup e tf.dictionary).isSome)
    (hunk : (List.lookup tf.unk_token tf.dictionary).isSome) :
    ∀ line, (tf.numberize line).isSome := by
  intro line
  rw [TextFile.numberize]
  have hmid : ∀ words, (mapTokens tf.dictionary tf.unk_token words).isSome := by
    intro words
    match words with
    | [] => simp [mapTokens]
    | w :: ws =>
        obtain ⟨u, hu⟩ := Option.isSome_iff_exists.mp hunk
        simp [mapTokens, hu]
  have hbosPart : (if pyTruthy tf.bos_token then
      (List.lookup (tf.bos_token.getD "") tf.dictionary).map (fun i => [i])
    else some []).isSome := by
    cases hbt : tf.bos_token with
    | none => simp [pyTruthy, hbt]
    | some b =>
        by_cases hbe : b.isEmpty
        · simp [pyTruthy, hbt, hbe]
        · obtain ⟨ib, hib⟩ := Option.isSome_iff_exists.mp (hbos b hbt)
          simp [pyTruthy, hbt, hbe, hib]
  have heosPart : (if pyTruthy tf.eos_token then
      (List.lookup (tf.eos_token.getD "") tf.dictionary).map (fun i => [i])
    else some []).isSome := by
    cases het : tf.eos_token with
    | none => simp [pyTruthy, het]
    | some e =>
        by_cases hee : e.isEmpty
        · simp [pyTruthy, het, hee]
        · obtain ⟨ie, hie⟩ := Option.isSome_iff_exists.mp (heos e het)
          simp [pyTruthy, het, hee, hie]
  obtain ⟨bp, hbp⟩ := Option.isSome_iff_exists.mp hbosPart
  obtain ⟨mp, hmp⟩ :=
    Option.isSome_iff_exists.mp (hmid (pySplit (pyPre tf.preprocess line)))
  obtain ⟨ep, hep⟩ := Option.isSome_iff_exists.mp heosPart
  simp only [hbp, hmp, hep]
  simp

theorem obwNumberize_isSome (dictionary : PyDict)
    (hS : (List.lookup "<S>" dictionary).isSome)
    (hU : (List.lookup "<UNK>" dictionary).isSome)
    (hE : (List.lookup "</S>" dictionary).isSome) :
    ∀ line, (obwNumberize dictionary line).isSome := by
  intro line
  obtain ⟨sId, hs⟩ := Option.isSome_iff_exists.mp hS
  obtain ⟨eId, he⟩ := Option.isSome_iff_exists.mp hE
  have hmid : (mapTokens dictionary "<UNK>" (pySplit line)).isSome := by
    match hw : pySplit line with
    | [] => simp [mapTokens]
    | w :: ws =>
        obtain ⟨u, hu⟩ := Option.isSome_iff_exists.mp hU
        simp [mapTokens, hu]
  obtain ⟨mp, hmp⟩ := Option.isSome_iff_exists.mp hmid
  rw [obwNumberize]
  simp only [hs, hmp, he]
  simp

/-! ## Claims -/

/-- C1, counterexample: the save is not atomic.  With a previous snapshot
`[1, 2, 3]` at the destination, a `dill.dump` that fails after writing
nothing leaves the destination truncated to `[]`: the failure is recorded
(`saving_done_to = None`) but the previous snapshot is destroyed instead
of remaining untouched, and no fully valid snapshot exists either. -/
theorem c1_save_not_atomic_counterexample :
    serializeMainLoop_do "checkpoint.pkl" (.failDump [])
        ⟨some [1, 2, 3], none⟩
      = .ok ⟨some [], some none⟩
    ∧ some ([] : List Nat) ≠ some [1, 2, 3] := by
  exact ⟨rfl, by decide⟩

/-- C1, amended: `SerializeMainLoop.do` records the destination path and a
full snapshot on success; on a failure of `open` itself the destination is
untouched and a null `saving_done_to` marker is recorded; on a failure
during dumping the destination holds only the partial prefix written
(any previous snapshot is destroyed by the `"wb"` truncation) and the null
marker is recorded. -/
theorem c1_save_effects :
    (∀ (path : String) (payload : List Nat) (w : SaveWorld),
      serializeMainLoop_do path (.success payload) w
        = .ok ⟨some payload, some (some path)⟩)
    ∧ (∀ (path : String) (w : SaveWorld),
      serializeMainLoop_do path .failOpen w = .ok ⟨w.dest, some none⟩)
    ∧ (∀ (path : String) (written : List Nat) (w : SaveWorld),
      serializeMainLoop_do path (.failDump written) w
        = .ok ⟨some written, some none⟩) :=
  ⟨fun _ _ _ => rfl, fun _ _ => rfl, fun _ _ _ => rfl⟩

/-- C7: checkpoint save and load failures never escape the lifecycle
extensions.  Whatever the outcome of the underlying operation, each
extension returns normally (`Except.ok`): the save extensions leave
`saving_done_to` set to the destination on success and to `None` on any
failure, and the load extension records `loaded_from` only on a successful
load, logging the diagnostic and continuing otherwise. -/
theorem c7_extension_failures_contained :
    (∀ (path : String) (outcome : SerOutcome) (w : SaveWorld),
      serializeMainLoop_do path outcome w
        = .ok ⟨(match outcome with
                | .success payload => some payload
                | .failOpen => w.dest
                | .failDump written => some written),
               some (match outcome with
                     | .success _ => some path
                     | _ => none)⟩)
    ∧ (∀ (folder : String) (outcome : OpOutcome) (w : ManagedSaveWorld),
      saveTrainingState_do folder outcome w
        = .ok ⟨some (match outcome with
                     | .success => some folder
                     | .failure => none),
               (match outcome with
                | .success => true
                | .failure => w.saved)⟩)
    ∧ (∀ (folder : String) (outcome : OpOutcome) (w : LoadWorld),
      loadTrainingState_before_training folder outcome w
        = .ok ⟨(match outcome with
                | .success => some (some folder)
                | .failure => w.loadedFrom),
               (match outcome with
                | .success => true
                | .failure => w.restored),
               (match outcome with
                | .success => w.errorLogged
                | .failure => true)⟩) := by
  refine ⟨fun path outcome w => ?_, fun folder outcome w => ?_,
    fun folder outcome w => ?_⟩ <;> cases outcome <;> rfl

/-- The `TextFile` of the docstring example: one file whose single line is
`"This is a sentence\n"`, the five-entry dictionary, BOS disabled, default
EOS and unknown tokens, `preprocess=str.lower`. -/
def c5TextFile : TextFile :=
  ⟨[["This is a sentence\n"]],
   [("<UNK>", 0), ("</S>", 1), ("this", 2), ("a", 3), ("one", 4)],
   none, some "</S>", "<UNK>", "word", some pyLower⟩

/-- C5: with the example dictionary, `bos_token=None` and lower-casing
preprocessing, the line `"This is a sentence"` numberizes to
`[2, 0, 3, 0, 1]`: in-vocabulary words map to their ids, out-of-vocabulary
words to the unknown id 0, no BOS id is prepended (the element is omitted
entirely), and the EOS id 1 is appended; reading that line through
`get_data` returns exactly this sequence. -/
theorem c5_example_line_numberized :
    c5TextFile.numberize "This is a sentence" = some [2, 0, 3, 0, 1]
    ∧ c5TextFile.get_data c5TextFile.openState none
        = .ok [2, 0, 3, 0, 1] ⟨0, .opened []⟩ := by
  constructor
  · decide
  · have ho : c5TextFile.openState = ⟨0, .opened ["This is a sentence\n"]⟩ := rfl
    rw [ho, TextFile.get_data]
    simp only [Option.isSome_none, Bool.false_eq_true, if_false, nextLine_cons]
    decide

/-- C6: `TextFile` construction fails (with the `ValueError` the spec calls
`ConfigurationError`) exactly when a required token is missing from the
dictionary — always when the unknown token is absent, and when
`bos_token` (resp. `eos_token`) is non-`None` and absent; disabling a
token removes its requirement.  Moreover the check is exhaustive: a
successfully constructed reader never raises a `KeyError` at read time
(numberizing any line succeeds). -/
theorem c6_config_error_iff_missing_token :
    (∀ (files : List (List String)) (dictionary : PyDict)
       (bos_token eos_token : Option String) (unk_token level : String)
       (preprocess : Option (String → String)),
      TextFile.init files dictionary bos_token eos_token unk_token level
          preprocess = none ↔
        (∃ b, bos_token = some b ∧ List.lookup b dictionary = none) ∨
        (∃ e, eos_token = some e ∧ List.lookup e dictionary = none) ∨
        List.lookup unk_token dictionary = none)
    ∧ (∀ (files : List (List String)) (dictionary : PyDict)
         (bos_token eos_token : Option String) (unk_token level : String)
         (preprocess : Option (String → String)) (tf : TextFile),
        TextFile.init files dictionary bos_token eos_token unk_token level
            preprocess = some tf →
        ∀ line, (tf.numberize line).isSome) := by
  constructor
  · intro files dictionary bos_token eos_token unk_token level preprocess
    exact textFile_init_none_iff files dictionary bos_token eos_token unk_token
      level preprocess
  · intro files dictionary bos_token eos_token unk_token level preprocess tf h
    obtain ⟨htf, hbos, heos, hunk⟩ := textFile_init_some files dictionary
      bos_token eos_token unk_token level preprocess tf h
    subst htf
    exact numberize_isSome _ hbos heos hunk

/-- Witness for C6 at concrete inputs: a dictionary missing the enabled
BOS token is rejected, and a reader constructed with BOS/EOS disabled over
a dictionary containing only the unknown token numberizes lines without a
`KeyError`. -/
theorem c6_config_error_iff_missing_token_witness :
    TextFile.init [] [("<UNK>", 0)] (some "<S>") none "<UNK>" "word" none = none
    ∧ ((⟨[], [("<UNK>", 0)], none, none, "<UNK>", "word", none⟩ : TextFile).numberize
        "x y").isSome = true := by
  constructor
  · exact (c6_config_error_iff_missing_token.1 [] [("<UNK>", 0)] (some "<S>")
      none "<UNK>" "word" none).mpr (Or.inl ⟨"<S>", rfl, by decide⟩)
  · exact c6_config_error_iff_missing_token.2 [] [("<UNK>", 0)] none none
      "<UNK>" "word" none ⟨[], [("<UNK>", 0)], none, none, "<UNK>", "word", none⟩
      rfl "x y"

/-- A `TextFile` constructed with `level='character'`: the dictionary has
single characters and a full word as keys, one file with the line
`"ab\n"`. -/
def c8TextFile : TextFile :=
  ⟨[["ab\n"]], [("a", 0), ("b", 1), ("ab", 2), ("<UNK>", 3), ("</S>", 4)],
   none, some "</S>", "<UNK>", "character", none⟩

/-- C8 (bug evidence): `self.level` is stored but never consulted by
`get_data` — numberizing is identical for every `level` value, and with
`level='character'` the example line `"ab"` still yields the flat
word-level sequence `[2, 4]` (the whole token `"ab"` looked up as one key,
EOS appended), not a list of per-word character-id sublists as the class
docstring promises. -/
theorem c8_character_level_never_used :
    (∀ (files : List (List String)) (dictionary : PyDict)
       (bos_token eos_token : Option String) (unk_token lvl1 lvl2 : String)
       (preprocess : Option (String → String)) (sentence : String),
      TextFile.numberize
          ⟨files, dictionary, bos_token, eos_token, unk_token, lvl1, preprocess⟩
          sentence
        = TextFile.numberize
          ⟨files, dictionary, bos_token, eos_token, unk_token, lvl2, preprocess⟩
          sentence)
    ∧ c8TextFile.get_data c8TextFile.openState none = .ok [2, 4] ⟨0, .opened []⟩ := by
  constructor
  · intro files dictionary bos_token eos_token unk_token lvl1 lvl2 preprocess sentence
    rfl
  · have ho : c8TextFile.openState = ⟨0, .opened ["ab\n"]⟩ := rfl
    rw [ho, TextFile.get_data]
    simp only [Option.isSome_none, Bool.false_eq_true, if_false, nextLine_cons]
    decide

/-- The `OneBillionWord` reader used to witness C9, parametrized by the
preprocessing function. -/
def c9Reader (preprocess : Option (String → String)) : OneBillionWord :=
  ⟨"heldout", [0], [("<S>", 5), ("</S>", 6), ("<UNK>", 7), ("this", 8)], preprocess⟩

/-- C9: `OneBillionWord.get_data` never applies the `preprocess` function
supplied at construction: the result is identical for every choice of
`preprocess`, and concretely, with `preprocess=str.lower`, the raw line
`"This one\n"` is numberized from its raw (uppercase) form — `"This"`
falls back to the unknown id 7 even though the lower-cased `"this"` is in
the dictionary (id 8). -/
theorem c9_preprocess_never_applied :
    (∀ (which_set : String) (which_partitions : List Int) (dictionary : PyDict)
       (p q : Option (String → String)) (dataPath : String)
       (fs : String → List String) (s : ReaderState) (request : Nat),
      OneBillionWord.get_data ⟨which_set, which_partitions, dictionary, p⟩
          dataPath fs s request
        = OneBillionWord.get_data ⟨which_set, which_partitions, dictionary, q⟩
          dataPath fs s request)
    ∧ OneBillionWord.get_data (c9Reader (some pyLower)) "d"
        (fun _ => ["This one\n"]) ⟨0, .opened ["This one\n"]⟩ 1
        = .ok [[5, 7, 7, 6]] ⟨0, .opened []⟩ := by
  constructor
  · intro which_set which_partitions dictionary p q dataPath fs s request
    rfl
  · rw [OneBillionWord.get_data, obwLoop_step _ _ _ _ _ (by decide)]
    have h1 : obwNumberize (c9Reader (some pyLower)).dictionary "This one\n"
        = some [5, 7, 7, 6] := by decide
    simp only [nextLine_cons, h1]
    rw [obwLoop_done _ _ _ _ _ (by simp)]
    simp

/-- C10: `OneBillionWord` construction never fails — all four arguments are
stored without validation; `_open_file` maps every `which_set` other than
exactly `'training'` to the held-out naming scheme; and partition numbers
outside the documented ranges are formatted into paths unchecked
(training partition 100 and held-out partition 50 are both outside their
valid ranges). -/
theorem c10_no_validation_heldout_default :
    (∀ (which_set : String) (which_partitions : List Int) (dictionary : PyDict)
       (preprocess : Option (String → String)),
      OneBillionWord.init which_set which_partitions dictionary preprocess
        = .ok ⟨which_set, which_partitions, dictionary, preprocess⟩)
    ∧ (∀ (obw : OneBillionWord) (dataPath : String) (i : Nat),
        obw.which_set ≠ "training" →
        obw.openPath dataPath i
          = (obw.which_partitions[i]?).map (fun partition =>
              dataPath
                ++ "/1-billion-word/heldout-monolingual.tokenized.shuffled/news.en.heldout-"
                ++ format05 partition ++ "-of-00050"))
    ∧ OneBillionWord.openPath ⟨"training", [100], [], none⟩ "D" 0
        = some "D/1-billion-word/training-monolingual.tokenized.shuffled/news.en-00100-of-00100"
    ∧ OneBillionWord.openPath ⟨"heldout", [50], [], none⟩ "D" 0
        = some "D/1-billion-word/heldout-monolingual.tokenized.shuffled/news.en.heldout-00050-of-00050" := by
  refine ⟨fun _ _ _ _ => rfl, ?_, by decide, by decide⟩
  intro obw dataPath i h
  rw [OneBillionWord.openPath]
  congr 1
  funext partition
  rw [partitionPath, if_neg h]

/-- Witness for C10: a `which_set` value that is neither `'training'` nor
`'heldout'` still resolves to the held-out naming scheme. -/
theorem c10_no_validation_heldout_default_witness :
    ("nonsense" ≠ "training")
    ∧ OneBillionWord.openPath ⟨"nonsense", [7], [], none⟩ "D" 0
      = (([7] : List Int)[0]?).map (fun partition =>
          "D" ++ "/1-billion-word/heldout-monolingual.tokenized.shuffled/news.en.heldout-"
            ++ format05 partition ++ "-of-00050") :=
  ⟨by decide,
   c10_no_validation_heldout_default.2.1 ⟨"nonsense", [7], [], none⟩ "D" 0 (by decide)⟩

/-- Driving `get_data(state, None)` from a fresh state over a non-empty
file list whose lines all numberize returns the tokenized lines of all
files in order, then signals end-of-corpus. -/
theorem consume_all_lines (tf : TextFile)
    (f0 : List String) (fsrest : List (List String))
    (hfiles : tf.files = f0 :: fsrest)
    (hnum : ∀ line ∈ tf.files.flatten, (tf.numberize line).isSome) :
    tf.consume (tf.files.flatten.length + 1) tf.openState
      = (tf.files.flatten.map (fun l => (tf.numberize l).getD []), .endOfCorpus) := by
  have h0 : tf.openState = ⟨0, .opened f0⟩ := by
    rw [TextFile.openState, hfiles]
    rfl
  have hlt : 0 < tf.files.length := by
    rw [hfiles]
    simp
  have hrem : remLines tf.files ⟨0, .opened f0⟩ = tf.files.flatten := by
    rw [remLines_opened, hfiles]
    simp
  rw [h0]
  exact consume_spec tf tf.files.flatten 0 f0 hlt hrem hnum

/-- C2: for every `TextFile` reader successfully constructed over a
non-empty ordered file list, successive `get_data(state, None)` calls from
a freshly opened state return the tokenized lines of all files strictly in
file order — one full sequence per call, the internal loop advancing
transparently across any number of consecutive empty files without ever
surfacing an empty or partial result — and the call after the last line of
the last file signals end-of-corpus. -/
theorem c2_reads_all_lines_in_order (dictionary : PyDict)
    (bos_token eos_token : Option String) (unk_token level : String)
    (preprocess : Option (String → String))
    (f0 : List String) (fsrest : List (List String)) (tf : TextFile)
    (hinit : TextFile.init (f0 :: fsrest) dictionary bos_token eos_token
      unk_token level preprocess = some tf) :
    tf.consume (tf.files.flatten.length + 1) tf.openState
      = (tf.files.flatten.map (fun l => (tf.numberize l).getD []), .endOfCorpus) := by
  obtain ⟨htf, hbos, heos, hunk⟩ := textFile_init_some (f0 :: fsrest) dictionary
    bos_token eos_token unk_token level preprocess tf hinit
  subst htf
  exact consume_all_lines _ f0 fsrest rfl
    (fun line _ => numberize_isSome _ hbos heos hunk line)

/-- The two-file scenario from the spec: `a.txt` with one line, `b.txt`
with one line. -/
def c2TextFile : TextFile :=
  ⟨[["one a\n"], ["one\n"]],
   [("<UNK>", 0), ("</S>", 1), ("this", 2), ("a", 3), ("one", 4)],
   none, some "</S>", "<UNK>", "word", none⟩

/-- Witness for C2: two sequential reads return the two tokenized lines in
file order and the third read signals end-of-corpus. -/
theorem c2_reads_all_lines_in_order_witness :
    TextFile.init [["one a\n"], ["one\n"]]
        [("<UNK>", 0), ("</S>", 1), ("this", 2), ("a", 3), ("one", 4)]
        none (some "</S>") "<UNK>" "word" none = some c2TextFile
    ∧ c2TextFile.consume 3 c2TextFile.openState
      = ([[4, 3, 1], [4, 1]], .endOfCorpus) := by
  refine ⟨rfl, ?_⟩
  exact (c2_reads_all_lines_in_order
      [("<UNK>", 0), ("</S>", 1), ("this", 2), ("a", 3), ("one", 4)]
      none (some "</S>") "<UNK>" "word" none
      ["one a\n"] [["one\n"]] c2TextFile rfl).trans (by decide)

/-- A `TextFile` over a single empty file (construction succeeds: the
unknown token is present, BOS and EOS are disabled). -/
def c4TextFile : TextFile :=
  ⟨[[]], [("<UNK>", 0)], none, none, "<UNK>", "word", none⟩

/-- C4, counterexample: after end-of-corpus has been signaled the handle
is closed, so the next `get_data` call does not re-signal end-of-corpus —
it raises `ValueError` (Python: reading a closed file). -/
theorem c4_reentry_counterexample :
    c4TextFile.get_data c4TextFile.openState none = .stopIteration ⟨0, .closed⟩
    ∧ c4TextFile.get_data ⟨0, .closed⟩ none = .valueError ⟨0, .closed⟩
    ∧ (c4TextFile.get_data ⟨0, .closed⟩ none).isStopIteration = false := by
  refine ⟨?_, ?_, ?_⟩
  · have ho : c4TextFile.openState = ⟨0, .opened []⟩ := rfl
    rw [ho, TextFile.get_data]
    simp only [Option.isSome_none, Bool.false_eq_true, if_false,
      nextLine_nil_last c4TextFile.files 0 (by decide)]
  · rw [textFile_get_data_closed]
  · rw [textFile_get_data_closed]
    rfl

/-- C4, amended: re-entering `get_data` on a state whose handle is closed —
the terminal state left behind once end-of-corpus was signaled — always
raises `ValueError` (reading a closed file), for both readers, with the
state unchanged; it does not re-signal end-of-corpus. -/
theorem c4_reentry_raises_value_error :
    (∀ (tf : TextFile) (i : Nat),
      tf.get_data ⟨i, .closed⟩ none = .valueError ⟨i, .closed⟩)
    ∧ (∀ (obw : OneBillionWord) (dataPath : String) (fs : String → List String)
         (i request : Nat), 0 < request →
        obw.get_data dataPath fs ⟨i, .closed⟩ request = .valueError ⟨i, .closed⟩) :=
  ⟨fun tf i => textFile_get_data_closed tf i,
   fun obw dataPath fs i request h => obw_get_data_closed obw dataPath fs i request h⟩

/-- Witness for C4 (amended) at concrete closed states. -/
theorem c4_reentry_raises_value_error_witness :
    (0 < 1)
    ∧ c4TextFile.get_data ⟨5, .closed⟩ none = .valueError ⟨5, .closed⟩
    ∧ OneBillionWord.get_data ⟨"heldout", [0], [], none⟩ "D" (fun _ => [])
        ⟨0, .closed⟩ 1 = .valueError ⟨0, .closed⟩ :=
  ⟨by decide, c4_reentry_raises_value_error.1 c4TextFile 5,
   c4_reentry_raises_value_error.2 ⟨"heldout", [0], [], none⟩ "D" (fun _ => []) 0 1
     (by decide)⟩

/-- C3, amended: for a positive request `N` from an in-range open state
with `R` remaining lines (all of which numberize), `OneBillionWord.get_data`
returns exactly `N` sequences when `N ≤ |R|`; returns exactly the `|R|`
remaining sequences as a partial batch when `0 < |R| < N`, leaving the
handle closed; signals end-of-corpus exactly on a call that collects zero
sequences (`R = []` with the handle still open) — so an empty batch is
never returned — but after a partial batch the next call finds the closed
handle and raises `ValueError` instead of signaling end-of-corpus. -/
theorem c3_batch_sizes (obw : OneBillionWord) (dataPath : String)
    (fs : String → List String) (i : Nat) (rest : List String)
    (request : Nat) (R : List String)
    (hlt : i < (obw.fileContents dataPath fs).length)
    (hR : remLines (obw.fileContents dataPath fs) ⟨i, .opened rest⟩ = R)
    (hnum : ∀ l ∈ R, (obwNumberize obw.dictionary l).isSome)
    (hreq : 0 < request) :
    (request ≤ R.length →
      ∃ i' r', obw.get_data dataPath fs ⟨i, .opened rest⟩ request
          = .ok ((R.take request).map
              (fun l => (obwNumberize obw.dictionary l).getD [])) ⟨i', .opened r'⟩
        ∧ ((R.take request).map
            (fun l => (obwNumberize obw.dictionary l).getD [])).length = request)
    ∧ (0 < R.length → R.length < request →
        obw.get_data dataPath fs ⟨i, .opened rest⟩ request
          = .ok (R.map (fun l => (obwNumberize obw.dictionary l).getD []))
              ⟨(obw.fileContents dataPath fs).length - 1, .closed⟩)
    ∧ (R = [] →
        obw.get_data dataPath fs ⟨i, .opened rest⟩ request
          = .stopIteration ⟨(obw.fileContents dataPath fs).length - 1, .closed⟩)
    ∧ (∀ (j request2 : Nat), 0 < request2 →
        obw.get_data dataPath fs ⟨j, .closed⟩ request2 = .valueError ⟨j, .closed⟩) := by
  have hspec := obwLoop_spec obw.dictionary R (obw.fileContents dataPath fs)
    request [] i rest hlt hR hnum
  refine ⟨?_, ?_, ?_,
    fun j request2 h2 => obw_get_data_closed obw dataPath fs j request2 h2⟩
  · intro hle
    have h1 : ([] : List (List Nat)).length < request := by simpa using hreq
    have h2 : request ≤ R.length + ([] : List (List Nat)).length := by
      simpa using hle
    obtain ⟨i', r', he, hlt', hr'⟩ := hspec.2.1 h1 h2
    refine ⟨i', r', ?_, ?_⟩
    · rw [OneBillionWord.get_data, he]
      simp
    · rw [List.length_map, List.length_take]
      omega
  · intro hpos hlt2
    have h1 : ([] : List (List Nat)).length < request := by simpa using hreq
    have hsum : R.length + ([] : List (List Nat)).length < request := by
      simpa using hlt2
    have hne : R ≠ [] := by
      intro h0
      rw [h0] at hpos
      simp at hpos
    have h4 := hspec.2.2.2 h1 hsum (Or.inr hne)
    rw [OneBillionWord.get_data, h4]
    simp
  · intro hR0
    have h1 : ([] : List (List Nat)).length < request := by simpa using hreq
    have hsum : R.length + ([] : List (List Nat)).length < request := by
      rw [hR0]
      simpa using hreq
    have h3 := hspec.2.2.1 h1 hsum rfl hR0
    rw [OneBillionWord.get_data, h3]

/-- The partitioned reader used for the C3 scenario: one held-out
partition whose file has a single line. -/
def c3Reader : OneBillionWord :=
  ⟨"heldout", [0], [("<S>", 5), ("</S>", 6), ("<UNK>", 7), ("this", 8)], none⟩

/-- C3, counterexample to the final clause of the claim: requesting 2
sequences when only 1 remains returns the partial batch with the handle
closed, and the following call raises `ValueError` (closed-file read)
rather than signaling end-of-corpus. -/
theorem c3_next_call_counterexample :
    OneBillionWord.get_data c3Reader "D" (fun _ => ["this one\n"])
        ⟨0, .opened ["this one\n"]⟩ 2
      = .ok [[5, 8, 7, 6]] ⟨0, .closed⟩
    ∧ OneBillionWord.get_data c3Reader "D" (fun _ => ["this one\n"])
        ⟨0, .closed⟩ 2 = .valueError ⟨0, .closed⟩
    ∧ (OneBillionWord.get_data c3Reader "D" (fun _ => ["this one\n"])
        ⟨0, .closed⟩ 2).isStopIteration = false := by
  refine ⟨?_, ?_, ?_⟩
  · rw [OneBillionWord.get_data, obwLoop_step _ _ _ _ _ (by decide)]
    have h1 : obwNumberize c3Reader.dictionary "this one\n" = some [5, 8, 7, 6] := by
      decide
    simp only [nextLine_cons, h1]
    rw [obwLoop_step _ _ _ _ _ (by decide)]
    simp only [nextLine_nil_last (c3Reader.fileContents "D"
      (fun _ => ["this one\n"])) 0 (by decide)]
    simp
  · exact obw_get_data_closed c3Reader "D" (fun _ => ["this one\n"]) 0 2 (by decide)
  · rw [obw_get_data_closed c3Reader "D" (fun _ => ["this one\n"]) 0 2 (by decide)]
    rfl

/-- Witness for C3 (amended): with 2 lines remaining, requesting 2 returns
both sequences; with 1 line remaining, requesting 2 returns the partial
batch of 1; from the empty-handle state on the last file, a request
signals end-of-corpus; from a closed state it raises `ValueError`. -/
theorem c3_batch_sizes_witness :
    (0 < (2 : Nat))
    ∧ (∃ i' r', OneBillionWord.get_data c3Reader "D"
          (fun _ => ["this one\n", "this\n"]) ⟨0, .opened ["this one\n", "this\n"]⟩ 2
        = .ok [[5, 8, 7, 6], [5, 8, 6]] ⟨i', .opened r'⟩)
    ∧ OneBillionWord.get_data c3Reader "D" (fun _ => ["this one\n"])
        ⟨0, .opened []⟩ 2 = .stopIteration ⟨0, .closed⟩ := by
  refine ⟨by decide, ?_, ?_⟩
  · have h := (c3_batch_sizes c3Reader "D" (fun _ => ["this one\n", "this\n"]) 0
      ["this one\n", "this\n"] 2 ["this one\n", "this\n"] (by decide) (by decide)
      (by decide) (by decide)).1 (by decide)
    obtain ⟨i', r', he, hlen⟩ := h
    have hpay : (["this one\n", "this\n"].take 2).map
        (fun l => (obwNumberize c3Reader.dictionary l).getD [])
        = [[5, 8, 7, 6], [5, 8, 6]] := by decide
    exact ⟨i', r', by rw [he, hpay]⟩
  · have h := (c3_batch_sizes c3Reader "D" (fun _ => ["this one\n"]) 0
      [] 2 [] (by decide) (by decide) (by decide) (by decide)).2.2.1 rfl
    exact h.trans (by decide)
